import Mathlib

/-!
Shallow embedding of the CEIC Data Explorer core (src/app.py, src/config.py,
src/ceic_test.py): the metadata aggregation pipeline, the paginated drain with
progress reporting, and the session-state orchestration around them.

Modelling conventions:
* Python `datetime` values are modelled by `Date` (year, month, day); Python
  compares datetimes chronologically, i.e. lexicographically on components.
* Optional / possibly-absent attributes (`hasattr(x, a) and x.a`) are modelled
  with `Option`.
* Python `min` / `max` over a non-empty list are left folds over the binary
  min / max; `min(xs) if xs else None` is the `Option`-valued fold `listMinD`.
* Code that can raise (`processed_count / total_series` with a zero divisor)
  returns `Option`; `none` models the raised `ZeroDivisionError`.
-/

namespace CEIC

/-- A calendar date, modelling the `datetime` values stored in
`last_update_time`.  Chronological order is lexicographic on
(year, month, day). -/
structure Date where
  year : Nat
  month : Nat
  day : Nat
deriving DecidableEq, Repr

/-- Chronological comparison of two dates, as Python compares `datetime`
objects: lexicographic on (year, month, day). -/
def dateLe (a b : Date) : Bool :=
  if a.year < b.year then true
  else if b.year < a.year then false
  else if a.month < b.month then true
  else if b.month < a.month then false
  else a.day ≤ b.day

/-- Binary minimum with Python's tie-breaking: `min(a, b)` returns `a`
unless `b` is strictly smaller. -/
def minD (a b : Date) : Date :=
  if dateLe a b then a else b

/-- Binary maximum with Python's tie-breaking: `max(a, b)` returns `a`
unless `b` is strictly larger. -/
def maxD (a b : Date) : Date :=
  if dateLe b a then a else b

/-- One step of the `Option`-valued minimum fold (`min(xs) if xs else None`). -/
def minOpt (acc : Option Date) (d : Date) : Option Date :=
  match acc with
  | none => some d
  | some m => some (minD m d)

/-- One step of the `Option`-valued maximum fold (`max(xs) if xs else None`). -/
def maxOpt (acc : Option Date) (d : Date) : Option Date :=
  match acc with
  | none => some d
  | some m => some (maxD m d)

/-- `min(update_dates) if update_dates else None` from
`DataProcessor.process_full_metadata`. -/
def listMinD (dates : List Date) : Option Date :=
  dates.foldl minOpt none

/-- `max(update_dates) if update_dates else None` from
`DataProcessor.process_full_metadata`. -/
def listMaxD (dates : List Date) : Option Date :=
  dates.foldl maxOpt none

/-- Decimal rendering padded to two digits, as `%m` / `%d` in
`strftime('%Y-%m-%d')`. -/
def pad2 (n : Nat) : String :=
  if n < 10 then "0" ++ toString n else toString n

/-- Decimal rendering padded to four digits, as `%Y` in
`strftime('%Y-%m-%d')`. -/
def pad4 (n : Nat) : String :=
  if n < 10 then "000" ++ toString n
  else if n < 100 then "00" ++ toString n
  else if n < 1000 then "0" ++ toString n
  else toString n

/-- `d.strftime('%Y-%m-%d')`. -/
def formatDate (d : Date) : String :=
  pad4 d.year ++ "-" ++ pad2 d.month ++ "-" ++ pad2 d.day

/-- `x.strftime('%Y-%m-%d') if x else "N/A"` applied to an optional date
(a datetime object is always truthy in Python, so truthiness coincides with
presence). -/
def formatOptDate : Option Date → String
  | some d => formatDate d
  | none => "N/A"

/-- The fields of one series' metadata object that the embedded code reads:
`last_update_time` (absent or `None` modelled as `none`) and the nested
`status.name` string (`none` when `status` is absent or has no `name`). -/
structure Metadata where
  lastUpdateTime : Option Date
  statusName : Option String
deriving DecidableEq, Repr

/-- The four enrichment fields returned by
`DataProcessor.process_full_metadata`:
`"Min Date"`, `"Max Date"`, `"Active Series"`, `"Processed Series"`. -/
structure FullStats where
  minDate : String
  maxDate : String
  activeSeries : Nat
  processedSeries : Nat
deriving DecidableEq, Repr

/-- `DataProcessor.process_full_metadata` (src/app.py:150-178): statistics
over a full list of series metadata. -/
def process_full_metadata (metadata_list : List Metadata) : FullStats :=
  if metadata_list.isEmpty then
    { minDate := "N/A", maxDate := "N/A", activeSeries := 0, processedSeries := 0 }
  else
    let update_dates := metadata_list.filterMap (fun meta => meta.lastUpdateTime)
    let active_count := metadata_list.countP (fun meta => meta.statusName == some "Active")
    { minDate := formatOptDate (listMinD update_dates)
      maxDate := formatOptDate (listMaxD update_dates)
      activeSeries := active_count
      processedSeries := metadata_list.length }

/-- Legacy `SearchResultProcessor._extract_update_dates`
(src/ceic_test.py:151-162), restricted to the list of metadata objects it
walks: collect the `last_update_time` values that are present and not `None`. -/
def extract_update_dates (metadata_list : List Metadata) : List Date :=
  metadata_list.filterMap (fun meta => meta.lastUpdateTime)

/-- Legacy `SearchResultProcessor._format_date_range`
(src/ceic_test.py:164-173): `("N/A", "N/A")` on an empty list, otherwise the
formatted minimum and maximum. -/
def format_date_range (update_dates : List Date) : String × String :=
  match update_dates with
  | [] => ("N/A", "N/A")
  | d :: ds => (formatDate (ds.foldl minD d), formatDate (ds.foldl maxD d))

/-- `SERIES_THRESHOLD_FOR_WARNING` (src/config.py:12). -/
def SERIES_THRESHOLD_FOR_WARNING : Nat := 500

/-- One item of a search-result page; `metadata` is `none` when the item has
no `metadata` attribute. -/
structure Item where
  metadata : Option Metadata
deriving DecidableEq, Repr

/-- The `data` object of one search-result page: the declared total for the
whole query and the items on this page. -/
structure PageData where
  total : Nat
  items : List Item
deriving DecidableEq, Repr

/-- One page yielded by the provider's search iterator; `data` is `none` when
`page.data` is falsy or lacks an `items` attribute. -/
structure Page where
  data : Option PageData
deriving DecidableEq, Repr

/-- The summary dictionary built by `DataProcessor.create_summary_from_search`
and enriched by `SearchService.get_all_series_for_source`: keys `"ID"`,
`"Num Series"`, the optional `"Info"` message, and the optional enrichment
fields added after a full load. -/
structure Summary where
  id : String
  numSeries : Nat
  info : Option String
  stats : Option FullStats
deriving DecidableEq, Repr

/-- `DataProcessor.create_summary_from_search` (src/app.py:141-147). -/
def create_summary_from_search (results_page : Option Page) (source_id : String) : Summary :=
  match results_page with
  | none => { id := source_id, numSeries := 0,
              info := some "No series found or API error.", stats := none }
  | some page =>
    match page.data with
    | none => { id := source_id, numSeries := 0,
                info := some "No series found or API error.", stats := none }
    | some d => { id := source_id, numSeries := d.total, info := none, stats := none }

/-- The declared total carried by a probe result (0 when the page or its
`data` is absent); used to state hypotheses about what the probe returned. -/
def probeTotal (results_page : Option Page) : Nat :=
  match results_page with
  | some page =>
    match page.data with
    | some d => d.total
    | none => 0
  | none => 0

/-- The load request stored in `st.session_state[StateKey.SOURCE_ID_TO_LOAD]`
by the "Load Metadata" button: `{"id": source_id, "count": num_series}`. -/
structure LoadRequest where
  id : String
  count : Nat
deriving DecidableEq, Repr

/-- Whether `UIComponents.render_summary_table` (src/app.py:334-367) offers
the "Load Metadata" button for a given summary: no `"Info"` message, a
strictly positive series count, a truthy source id, and details not already
loaded for this source. -/
def render_offers_load (summary : Summary) (details_source_id : Option String) : Bool :=
  if summary.info.isSome then false
  else
    decide (summary.numSeries > 0) &&
    decide (summary.id ≠ "") &&
    decide (details_source_id ≠ some summary.id)

/-- The load request the "Load Metadata" button stores when clicked
(src/app.py:366): `{"id": source_id, "count": num_series}`. -/
def request_load (summary : Summary) : LoadRequest :=
  { id := summary.id, count := summary.numSeries }

/-- The `update_progress` callback (src/app.py:240-244).  It computes
`min(1.0, processed_count / total_series)` and hands that clamped fraction to
the progress bar; the unguarded division raises `ZeroDivisionError` when
`total_series` is zero, modelled by `none`. -/
def update_progress (total_series processed_count : Nat) : Option ℚ :=
  if total_series = 0 then none
  else some (min 1 ((processed_count : ℚ) / (total_series : ℚ)))

/-- The metadata accumulated by the drain loop of
`SearchService._fetch_series_metadata_pages` (src/app.py:281-294): for each
page whose `data` is present, the `metadata` attribute of every item that has
one, in order. -/
def drain_metadata : List Page → List Metadata
  | [] => []
  | page :: ps =>
    (match page.data with
     | none => []
     | some d => d.items.filterMap (fun item => item.metadata)) ++ drain_metadata ps

/-- The successive `processed_count` arguments passed to the progress
callback inside the drain loop (src/app.py:285-293), starting from a running
count `c`: the callback fires once per page whose `data` is present, with the
cumulative number of items seen. -/
def drain_counts : List Page → Nat → List Nat
  | [], _ => []
  | page :: ps, c =>
    match page.data with
    | none => drain_counts ps c
    | some d => (c + d.items.length) :: drain_counts ps (c + d.items.length)

/-- `SearchService._fetch_series_metadata_pages` (src/app.py:272-297): the
accumulated metadata, and the full sequence of arguments passed to the
progress callback — the per-page cumulative counts followed by the final
`progress_callback(total_series)` call. -/
def fetch_series_metadata_pages (pages : List Page) (total_series : Nat) :
    List Metadata × List Nat :=
  (drain_metadata pages, drain_counts pages 0 ++ [total_series])

/-- The Streamlit session state managed by `SessionManager`
(src/app.py:29-95), restricted to the fields the embedded operations touch. -/
structure SessionState where
  summaryData : List Summary
  seriesDetails : List Metadata
  seriesDetailsSourceId : Option String
  detailsFilterKeyword : String
  sourceIdToLoad : Option LoadRequest
deriving DecidableEq, Repr

/-- `SessionManager.clear_series_details` (src/app.py:74-79). -/
def clear_series_details (st : SessionState) : SessionState :=
  { st with seriesDetails := [], seriesDetailsSourceId := none, detailsFilterKeyword := "" }

/-- `SessionManager.set_summary_data` (src/app.py:81-84). -/
def set_summary_data (data : List Summary) (st : SessionState) : SessionState :=
  { st with summaryData := data, sourceIdToLoad := none }

/-- `SessionManager.set_series_details` (src/app.py:90-95). -/
def set_series_details (data : List Metadata) (source_id : String) (st : SessionState) :
    SessionState :=
  { st with seriesDetails := data, seriesDetailsSourceId := some source_id,
            detailsFilterKeyword := "", sourceIdToLoad := none }

/-- Outcome of the drain performed inside
`SearchService.get_all_series_for_source`: either the provider yields a finite
list of pages, or it raises with a message at some point during iteration. -/
inductive FetchOutcome where
  | success (pages : List Page)
  | failure (message : String)
deriving DecidableEq, Repr

/-- `SearchService.get_all_series_for_source` (src/app.py:226-270): on
success, aggregate the drained metadata, enrich the first summary in place,
force `"Num Series"` back to the probe total, and store the details; on any
exception, clear only the series details and surface one error message.
Returns the new state together with the list of error messages shown. -/
def get_all_series_for_source (st : SessionState) (source_id : String)
    (total_series : Nat) (outcome : FetchOutcome) : SessionState × List String :=
  match outcome with
  | .failure message =>
    (clear_series_details st,
     ["An error occurred while fetching series details: " ++ message])
  | .success pages =>
    let all_metadata := (fetch_series_metadata_pages pages total_series).1
    let detailed_stats := process_full_metadata all_metadata
    let st1 :=
      match st.summaryData with
      | [] => st
      | s0 :: rest =>
        set_summary_data
          ({ s0 with stats := some detailed_stats, numSeries := total_series } :: rest) st
    (set_series_details all_metadata source_id st1, [])

/-- The decision taken by `CEICExplorerApp._handle_data_loading_logic`
(src/app.py:617-646) on one run. -/
inductive LoadDecision where
  | noRequest
  | alreadyLoaded
  | confirmationRequired
  | loadDirectly
deriving DecidableEq, Repr

/-- `CEICExplorerApp._handle_data_loading_logic` (src/app.py:617-646): no
pending request → nothing; details already loaded for the requested source →
clear the request; count above the threshold → warn and wait for explicit
confirmation; otherwise load directly. -/
def handle_data_loading_logic (st : SessionState) : LoadDecision :=
  match st.sourceIdToLoad with
  | none => .noRequest
  | some load_request =>
    if st.seriesDetailsSourceId = some load_request.id then .alreadyLoaded
    else if load_request.count > SERIES_THRESHOLD_FOR_WARNING then .confirmationRequired
    else .loadDirectly

/-! ### Order lemmas for date comparison -/

lemma dateLe_iff (a b : Date) :
    dateLe a b = true ↔
      a.year < b.year ∨ a.year = b.year ∧
        (a.month < b.month ∨ a.month = b.month ∧ a.day ≤ b.day) := by
  unfold dateLe
  split_ifs with h1 h2 h3 h4 <;> simp <;> omega

lemma minD_comm (a b : Date) : minD a b = minD b a := by
  obtain ⟨ya, ma, da⟩ := a
  obtain ⟨yb, mb, db⟩ := b
  unfold minD
  split_ifs with h1 h2 <;>
    first
      | rfl
      | (simp_all only [dateLe_iff, Date.mk.injEq]; omega)

lemma minD_left_comm (a x y : Date) : minD (minD a x) y = minD (minD a y) x := by
  obtain ⟨ya, ma, da⟩ := a
  obtain ⟨yx, mx, dx⟩ := x
  obtain ⟨yy, my, dy⟩ := y
  unfold minD
  split_ifs <;>
    first
      | rfl
      | (simp_all only [dateLe_iff, Date.mk.injEq]; omega)

lemma maxD_comm (a b : Date) : maxD a b = maxD b a := by
  obtain ⟨ya, ma, da⟩ := a
  obtain ⟨yb, mb, db⟩ := b
  unfold maxD
  split_ifs with h1 h2 <;>
    first
      | rfl
      | (simp_all only [dateLe_iff, Date.mk.injEq]; omega)

lemma maxD_left_comm (a x y : Date) : maxD (maxD a x) y = maxD (maxD a y) x := by
  obtain ⟨ya, ma, da⟩ := a
  obtain ⟨yx, mx, dx⟩ := x
  obtain ⟨yy, my, dy⟩ := y
  unfold maxD
  split_ifs <;>
    first
      | rfl
      | (simp_all only [dateLe_iff, Date.mk.injEq]; omega)

lemma minOpt_left_comm (acc : Option Date) (x y : Date) :
    minOpt (minOpt acc x) y = minOpt (minOpt acc y) x := by
  cases acc with
  | none => simp [minOpt, minD_comm x y]
  | some m => simp [minOpt, minD_left_comm m x y]

lemma maxOpt_left_comm (acc : Option Date) (x y : Date) :
    maxOpt (maxOpt acc x) y = maxOpt (maxOpt acc y) x := by
  cases acc with
  | none => simp [maxOpt, maxD_comm x y]
  | some m => simp [maxOpt, maxD_left_comm m x y]

lemma foldl_minOpt_perm {l₁ l₂ : List Date} (p : l₁.Perm l₂) :
    ∀ acc : Option Date, l₁.foldl minOpt acc = l₂.foldl minOpt acc := by
  induction p with
  | nil => intro acc; rfl
  | cons x _ ih => intro acc; simp only [List.foldl_cons]; exact ih _
  | swap x y l => intro acc; simp only [List.foldl_cons]; rw [minOpt_left_comm]
  | trans _ _ ih₁ ih₂ => intro acc; rw [ih₁ acc, ih₂ acc]

lemma foldl_maxOpt_perm {l₁ l₂ : List Date} (p : l₁.Perm l₂) :
    ∀ acc : Option Date, l₁.foldl maxOpt acc = l₂.foldl maxOpt acc := by
  induction p with
  | nil => intro acc; rfl
  | cons x _ ih => intro acc; simp only [List.foldl_cons]; exact ih _
  | swap x y l => intro acc; simp only [List.foldl_cons]; rw [maxOpt_left_comm]
  | trans _ _ ih₁ ih₂ => intro acc; rw [ih₁ acc, ih₂ acc]

lemma listMinD_perm {l₁ l₂ : List Date} (p : l₁.Perm l₂) : listMinD l₁ = listMinD l₂ :=
  foldl_minOpt_perm p none

lemma listMaxD_perm {l₁ l₂ : List Date} (p : l₁.Perm l₂) : listMaxD l₁ = listMaxD l₂ :=
  foldl_maxOpt_perm p none

lemma foldl_minOpt_some (ds : List Date) :
    ∀ a : Date, ds.foldl minOpt (some a) = some (ds.foldl minD a) := by
  induction ds with
  | nil => intro a; rfl
  | cons d ds ih =>
    intro a
    simp only [List.foldl_cons, minOpt]
    exact ih (minD a d)

lemma foldl_maxOpt_some (ds : List Date) :
    ∀ a : Date, ds.foldl maxOpt (some a) = some (ds.foldl maxD a) := by
  induction ds with
  | nil => intro a; rfl
  | cons d ds ih =>
    intro a
    simp only [List.foldl_cons, maxOpt]
    exact ih (maxD a d)

lemma listMinD_cons (d : Date) (ds : List Date) :
    listMinD (d :: ds) = some (ds.foldl minD d) := by
  unfold listMinD
  simp only [List.foldl_cons, minOpt]
  exact foldl_minOpt_some ds d

lemma listMaxD_cons (d : Date) (ds : List Date) :
    listMaxD (d :: ds) = some (ds.foldl maxD d) := by
  unfold listMaxD
  simp only [List.foldl_cons, maxOpt]
  exact foldl_maxOpt_some ds d

/-! ### The "N/A" sentinel is never a formatted date -/

lemma dash_mem_formatDate (d : Date) : '-' ∈ (formatDate d).data := by
  unfold formatDate
  simp [String.data_append]

lemma formatDate_ne_NA (d : Date) : formatDate d ≠ "N/A" := by
  intro h
  have hm : '-' ∈ ("N/A" : String).data := h ▸ dash_mem_formatDate d
  exact absurd hm (by decide)

/-- Unfolding of `process_full_metadata` on a non-empty input list. -/
lemma process_full_metadata_ne_nil (l : List Metadata) (hl : l ≠ []) :
    process_full_metadata l =
      { minDate := formatOptDate (listMinD (l.filterMap (fun meta => meta.lastUpdateTime)))
        maxDate := formatOptDate (listMaxD (l.filterMap (fun meta => meta.lastUpdateTime)))
        activeSeries := l.countP (fun meta => meta.statusName == some "Active")
        processedSeries := l.length } := by
  unfold process_full_metadata
  rw [if_neg (by simp [hl])]

/-! ### Claim theorems -/

/-- C5: for every input list of metadata records in which no record has a
`last_update_time` present, the aggregator reports the distinct `"N/A"`
sentinel for both the min and max update date, never raises (it is a total
function), never reports any formatted date in their place, and still
computes the active count and processed count over that list. -/
theorem c5_missing_dates_report_sentinel (l : List Metadata)
    (h : ∀ m ∈ l, m.lastUpdateTime = none) :
    (process_full_metadata l).minDate = "N/A" ∧
    (process_full_metadata l).maxDate = "N/A" ∧
    (∀ d : Date, (process_full_metadata l).minDate ≠ formatDate d ∧
                 (process_full_metadata l).maxDate ≠ formatDate d) ∧
    (process_full_metadata l).activeSeries
      = l.countP (fun m => m.statusName == some "Active") ∧
    (process_full_metadata l).processedSeries = l.length := by
  have key : process_full_metadata l =
      { minDate := "N/A", maxDate := "N/A",
        activeSeries := l.countP (fun m => m.statusName == some "Active"),
        processedSeries := l.length } := by
    by_cases hl : l = []
    · subst hl; rfl
    · rw [process_full_metadata_ne_nil l hl]
      have hfm : l.filterMap (fun meta => meta.lastUpdateTime) = [] := by
        rw [List.filterMap_eq_nil_iff]
        exact h
      rw [hfm]
      rfl
  refine ⟨by rw [key], by rw [key], ?_, by rw [key], by rw [key]⟩
  intro d
  rw [key]
  exact ⟨fun e => formatDate_ne_NA d e.symm, fun e => formatDate_ne_NA d e.symm⟩

/-- Concrete all-dates-missing input for the C5 witness. -/
def noDatesInput : List Metadata :=
  [⟨none, some "Active"⟩, ⟨none, none⟩, ⟨none, some "Active"⟩]

theorem c5_witness :
    (∀ m ∈ noDatesInput, m.lastUpdateTime = none) ∧
    ((process_full_metadata noDatesInput).minDate = "N/A" ∧
     (process_full_metadata noDatesInput).maxDate = "N/A" ∧
     (∀ d : Date, (process_full_metadata noDatesInput).minDate ≠ formatDate d ∧
                  (process_full_metadata noDatesInput).maxDate ≠ formatDate d) ∧
     (process_full_metadata noDatesInput).activeSeries
       = noDatesInput.countP (fun m => m.statusName == some "Active") ∧
     (process_full_metadata noDatesInput).processedSeries = noDatesInput.length) :=
  ⟨by decide, c5_missing_dates_report_sentinel noDatesInput (by decide)⟩

/-- C6: on the concrete input of three records dated 2020-01-01, 2021-06-15
and 2019-12-31 with statuses [Active, Inactive, Active], the aggregator
returns min `"2019-12-31"`, max `"2021-06-15"`, active count 2 and processed
count 3. -/
theorem c6_small_full_load_scenario :
    process_full_metadata
      [⟨some ⟨2020, 1, 1⟩, some "Active"⟩,
       ⟨some ⟨2021, 6, 15⟩, some "Inactive"⟩,
       ⟨some ⟨2019, 12, 31⟩, some "Active"⟩] =
    { minDate := "2019-12-31", maxDate := "2021-06-15",
      activeSeries := 2, processedSeries := 3 } := by
  decide

/-- C7: the statistics aggregator is pure and order-independent — every
permutation of the input list yields the same min update date, max update
date and active count (in fact the same whole enrichment record), and
running it twice on the same list yields identical output. -/
theorem c7_aggregator_order_independent (l l' : List Metadata) (h : l.Perm l') :
    ((process_full_metadata l).minDate = (process_full_metadata l').minDate ∧
     (process_full_metadata l).maxDate = (process_full_metadata l').maxDate ∧
     (process_full_metadata l).activeSeries = (process_full_metadata l').activeSeries) ∧
    process_full_metadata l = process_full_metadata l' ∧
    process_full_metadata l = process_full_metadata l := by
  have key : process_full_metadata l = process_full_metadata l' := by
    by_cases hl : l = []
    · subst hl
      have hl' : l' = [] := List.Perm.eq_nil h.symm
      subst hl'
      rfl
    · have hl' : l' ≠ [] := fun e => hl (List.Perm.eq_nil (e ▸ h))
      rw [process_full_metadata_ne_nil l hl, process_full_metadata_ne_nil l' hl']
      have hp := h.filterMap (fun meta => meta.lastUpdateTime)
      rw [listMinD_perm hp, listMaxD_perm hp,
          h.countP_eq (fun meta => meta.statusName == some "Active"), h.length_eq]
  exact ⟨⟨by rw [key], by rw [key], by rw [key]⟩, key, rfl⟩

theorem c7_witness :
    (([⟨some ⟨2020, 1, 1⟩, some "Active"⟩, ⟨none, some "Inactive"⟩] : List Metadata).Perm
       [⟨none, some "Inactive"⟩, ⟨some ⟨2020, 1, 1⟩, some "Active"⟩]) ∧
    (((process_full_metadata [⟨some ⟨2020, 1, 1⟩, some "Active"⟩, ⟨none, some "Inactive"⟩]).minDate
        = (process_full_metadata [⟨none, some "Inactive"⟩, ⟨some ⟨2020, 1, 1⟩, some "Active"⟩]).minDate ∧
      (process_full_metadata [⟨some ⟨2020, 1, 1⟩, some "Active"⟩, ⟨none, some "Inactive"⟩]).maxDate
        = (process_full_metadata [⟨none, some "Inactive"⟩, ⟨some ⟨2020, 1, 1⟩, some "Active"⟩]).maxDate ∧
      (process_full_metadata [⟨some ⟨2020, 1, 1⟩, some "Active"⟩, ⟨none, some "Inactive"⟩]).activeSeries
        = (process_full_metadata [⟨none, some "Inactive"⟩, ⟨some ⟨2020, 1, 1⟩, some "Active"⟩]).activeSeries) ∧
     process_full_metadata [⟨some ⟨2020, 1, 1⟩, some "Active"⟩, ⟨none, some "Inactive"⟩]
       = process_full_metadata [⟨none, some "Inactive"⟩, ⟨some ⟨2020, 1, 1⟩, some "Active"⟩] ∧
     process_full_metadata [⟨some ⟨2020, 1, 1⟩, some "Active"⟩, ⟨none, some "Inactive"⟩]
       = process_full_metadata [⟨some ⟨2020, 1, 1⟩, some "Active"⟩, ⟨none, some "Inactive"⟩]) :=
  ⟨by decide, c7_aggregator_order_independent _ _ (by decide)⟩

/-- C10: the legacy date-range computation (`_extract_update_dates` followed
by `_format_date_range` from src/ceic_test.py) and the current aggregator
agree on every list of metadata records: the formatted min/max strings equal
the `"Min Date"` / `"Max Date"` fields of `process_full_metadata`. -/
theorem c10_legacy_current_date_range_agree (l : List Metadata) :
    format_date_range (extract_update_dates l) =
      ((process_full_metadata l).minDate, (process_full_metadata l).maxDate) := by
  by_cases hl : l = []
  · subst hl; rfl
  · rw [process_full_metadata_ne_nil l hl]
    unfold format_date_range extract_update_dates
    rcases hd : l.filterMap (fun meta => meta.lastUpdateTime) with _ | ⟨d, ds⟩
    · rw [hd]
      simp [listMinD, listMaxD, formatOptDate]
    · rw [hd]
      simp [listMinD_cons, listMaxD_cons, formatOptDate]

/-- A summary for which the "Load Metadata" action is offered has a strictly
positive series count. -/
lemma offers_load_pos (s : Summary) (details_source_id : Option String)
    (h : render_offers_load s details_source_id = true) : 0 < s.numSeries := by
  unfold render_offers_load at h
  by_cases hi : s.info.isSome
  · rw [if_pos hi] at h
    exact absurd h (by simp)
  · rw [if_neg hi] at h
    simp only [Bool.and_eq_true, decide_eq_true_eq] at h
    exact h.1.1

/-- C2: after a successful full load the session summary's `"Num Series"`
field equals the probe-reported total passed into the load, for every drain —
the stored `"Processed Series"` enrichment value is the drained record count,
which is stored separately and never overwrites `"Num Series"`. -/
theorem c2_total_count_authoritative (st : SessionState) (source_id : String)
    (total_series : Nat) (pages : List Page) (s0 : Summary) (rest : List Summary)
    (h : st.summaryData = s0 :: rest) :
    ((get_all_series_for_source st source_id total_series
        (.success pages)).1.summaryData.head?.map Summary.numSeries
      = some total_series) ∧
    ((get_all_series_for_source st source_id total_series
        (.success pages)).1.summaryData.head?.map Summary.stats
      = some (some (process_full_metadata
          (fetch_series_metadata_pages pages total_series).1))) ∧
    ((process_full_metadata (fetch_series_metadata_pages pages total_series).1).processedSeries
      = (fetch_series_metadata_pages pages total_series).1.length) := by
  refine ⟨?_, ?_, ?_⟩
  · simp [get_all_series_for_source, h, set_summary_data, set_series_details]
  · simp [get_all_series_for_source, h, set_summary_data, set_series_details]
  · by_cases hm : (fetch_series_metadata_pages pages total_series).1 = []
    · rw [hm]; rfl
    · rw [process_full_metadata_ne_nil _ hm]

/-- Concrete pre-load session state used by the witnesses: one probed summary
for source `"S1"` declaring 2 series, no details loaded. -/
def probedState : SessionState :=
  { summaryData := [{ id := "S1", numSeries := 2, info := none, stats := none }],
    seriesDetails := [], seriesDetailsSourceId := none,
    detailsFilterKeyword := "", sourceIdToLoad := none }

/-- Concrete drain result used by the witnesses: one page carrying three
items (more than the declared total of 2), one of which has no metadata. -/
def overflowPages : List Page :=
  [⟨some ⟨2, [⟨some ⟨some ⟨2020, 1, 1⟩, some "Active"⟩⟩, ⟨none⟩,
              ⟨some ⟨some ⟨2019, 12, 31⟩, some "Inactive"⟩⟩]⟩⟩]

theorem c2_witness :
    probedState.summaryData
        = { id := "S1", numSeries := 2, info := none, stats := none } :: [] ∧
    (((get_all_series_for_source probedState "S1" 2
         (.success overflowPages)).1.summaryData.head?.map Summary.numSeries
       = some 2) ∧
     ((get_all_series_for_source probedState "S1" 2
         (.success overflowPages)).1.summaryData.head?.map Summary.stats
       = some (some (process_full_metadata
           (fetch_series_metadata_pages overflowPages 2).1))) ∧
     ((process_full_metadata (fetch_series_metadata_pages overflowPages 2).1).processedSeries
       = (fetch_series_metadata_pages overflowPages 2).1.length)) :=
  ⟨by decide,
   c2_total_count_authoritative probedState "S1" 2 overflowPages
     { id := "S1", numSeries := 2, info := none, stats := none } [] (by decide)⟩

/-- C3: if the provider fails at any point during the drain, the partially
accumulated metadata list is discarded (series details cleared, their source
id reset), the prior summary — including any enrichment — is left exactly as
it was, and exactly one error message is surfaced. -/
theorem c3_error_mid_drain_preserves_summary (st : SessionState) (source_id : String)
    (total_series : Nat) (message : String) :
    ((get_all_series_for_source st source_id total_series
        (.failure message)).1.seriesDetails = []) ∧
    ((get_all_series_for_source st source_id total_series
        (.failure message)).1.seriesDetailsSourceId = none) ∧
    ((get_all_series_for_source st source_id total_series
        (.failure message)).1.summaryData = st.summaryData) ∧
    ((get_all_series_for_source st source_id total_series
        (.failure message)).2.length = 1) :=
  ⟨rfl, rfl, rfl, rfl⟩

/-- C4: for a pending full-load request with a count exactly at the
threshold (500), loading proceeds directly with no confirmation; with a
count of threshold + 1 (501), explicit confirmation is required first. -/
theorem c4_threshold_gate_boundary (st : SessionState) (source_id : String)
    (h : st.seriesDetailsSourceId ≠ some source_id) :
    handle_data_loading_logic
        { st with sourceIdToLoad := some ⟨source_id, SERIES_THRESHOLD_FOR_WARNING⟩ }
      = .loadDirectly ∧
    handle_data_loading_logic
        { st with sourceIdToLoad := some ⟨source_id, SERIES_THRESHOLD_FOR_WARNING + 1⟩ }
      = .confirmationRequired := by
  unfold handle_data_loading_logic
  simp [h, SERIES_THRESHOLD_FOR_WARNING]

theorem c4_witness :
    probedState.seriesDetailsSourceId ≠ some "S1" ∧
    (handle_data_loading_logic
         { probedState with sourceIdToLoad := some ⟨"S1", SERIES_THRESHOLD_FOR_WARNING⟩ }
       = .loadDirectly ∧
     handle_data_loading_logic
         { probedState with sourceIdToLoad := some ⟨"S1", SERIES_THRESHOLD_FOR_WARNING + 1⟩ }
       = .confirmationRequired) :=
  ⟨by decide, c4_threshold_gate_boundary probedState "S1" (by decide)⟩

/-- C8: when the probe's declared total is zero (including when the page or
its data is absent), the resulting summary carries `"Num Series" = 0` and the
"Load Metadata" action is never offered for it; in general the load action is
only offered when the series count is strictly positive. -/
theorem c8_zero_probe_forbids_load (results_page : Option Page) (source_id : String)
    (h : probeTotal results_page = 0) :
    (create_summary_from_search results_page source_id).numSeries = 0 ∧
    (∀ details_source_id,
        render_offers_load (create_summary_from_search results_page source_id)
          details_source_id = false) ∧
    (∀ (s : Summary) (details_source_id : Option String),
        render_offers_load s details_source_id = true → 0 < s.numSeries) := by
  have hz : (create_summary_from_search results_page source_id).numSeries = 0 := by
    rcases results_page with _ | ⟨_ | d⟩ <;>
      simp_all [create_summary_from_search, probeTotal]
  refine ⟨hz, ?_, offers_load_pos⟩
  intro details_source_id
  rcases hr : render_offers_load (create_summary_from_search results_page source_id)
      details_source_id with _ | _
  · rfl
  · exact absurd (hz ▸ offers_load_pos _ _ hr) (by simp)

theorem c8_witness :
    probeTotal (some ⟨some ⟨0, []⟩⟩) = 0 ∧
    ((create_summary_from_search (some ⟨some ⟨0, []⟩⟩) "S1").numSeries = 0 ∧
     (∀ details_source_id,
         render_offers_load (create_summary_from_search (some ⟨some ⟨0, []⟩⟩) "S1")
           details_source_id = false) ∧
     (∀ (s : Summary) (details_source_id : Option String),
         render_offers_load s details_source_id = true → 0 < s.numSeries)) :=
  ⟨by decide, c8_zero_probe_forbids_load (some ⟨some ⟨0, []⟩⟩) "S1" (by decide)⟩

/-- C9: the progress callback's unguarded division raises exactly when the
declared total is zero, but whenever the load action is offered for a summary
the load request it stores carries that summary's strictly positive count, so
the callback never hits the division-by-zero branch. -/
theorem c9_division_by_zero_unreachable (s : Summary) (details_source_id : Option String)
    (h : render_offers_load s details_source_id = true) :
    (∀ processed_count, update_progress 0 processed_count = none) ∧
    (∀ processed_count,
        (update_progress (request_load s).count processed_count).isSome = true) := by
  refine ⟨fun _ => rfl, fun processed_count => ?_⟩
  have hpos : 0 < s.numSeries := offers_load_pos s details_source_id h
  unfold update_progress request_load
  rw [if_neg (Nat.pos_iff_ne_zero.mp hpos)]
  rfl

theorem c9_witness :
    render_offers_load { id := "S1", numSeries := 2, info := none, stats := none } none = true ∧
    ((∀ processed_count, update_progress 0 processed_count = none) ∧
     (∀ processed_count,
         (update_progress
            (request_load { id := "S1", numSeries := 2, info := none, stats := none }).count
            processed_count).isSome = true)) :=
  ⟨by decide,
   c9_division_by_zero_unreachable
     { id := "S1", numSeries := 2, info := none, stats := none } none (by decide)⟩

/-- The running counts reported by the drain loop form a non-decreasing
chain starting at the initial count. -/
lemma drain_counts_chain (pages : List Page) :
    ∀ c : Nat, List.Chain' (· ≤ ·) (c :: drain_counts pages c) := by
  induction pages with
  | nil => intro c; exact List.chain'_singleton c
  | cons page ps ih =>
    intro c
    cases hpd : page.data with
    | none =>
      simp only [drain_counts, hpd]
      exact ih c
    | some d =>
      simp only [drain_counts, hpd]
      rw [List.chain'_cons]
      exact ⟨Nat.le_add_right c d.items.length, ih (c + d.items.length)⟩

/-- With a positive declared total, the progress callback delivers exactly the
clamped fraction `min total processed / total`. -/
lemma update_progress_eq (total_series processed_count : Nat) (h : 0 < total_series) :
    update_progress total_series processed_count
      = some (((min total_series processed_count : Nat) : ℚ) / (total_series : ℚ)) := by
  unfold update_progress
  rw [if_neg (Nat.pos_iff_ne_zero.mp h)]
  congr 1
  have ht : (0 : ℚ) < (total_series : ℚ) := by exact_mod_cast h
  rcases le_total processed_count total_series with hp | hp
  · rw [min_eq_right hp,
        min_eq_right ((div_le_one ht).mpr (by exact_mod_cast hp))]
  · rw [min_eq_left hp,
        min_eq_left ((one_le_div ht).mpr (by exact_mod_cast hp))]
    exact (div_self (ne_of_gt ht)).symm

/-- C1: during a full load with a positive declared total, every progress
update handed to the progress sink is the clamped value
`min(1, processed/total)`, i.e. it carries the clamped processed count
`min total processed`; across all callback invocations of one drain —
including the final `progress_callback(total_series)` call, and even when the
provider yields more records than declared — that clamped count is
monotonically non-decreasing and never exceeds the declared total. -/
theorem c1_progress_clamped_monotone (pages : List Page) (total_series : Nat)
    (h : 0 < total_series) :
    (∀ p ∈ (fetch_series_metadata_pages pages total_series).2,
        update_progress total_series p
          = some (((min total_series p : Nat) : ℚ) / (total_series : ℚ))) ∧
    List.Chain' (· ≤ ·)
      ((fetch_series_metadata_pages pages total_series).2.map
        (fun p => min total_series p)) ∧
    (∀ c ∈ (fetch_series_metadata_pages pages total_series).2.map
        (fun p => min total_series p), c ≤ total_series) := by
  have hmem : ∀ c ∈ (fetch_series_metadata_pages pages total_series).2.map
      (fun p => min total_series p), c ≤ total_series := by
    intro c hc
    rcases List.mem_map.mp hc with ⟨p, _, rfl⟩
    exact min_le_left _ _
  refine ⟨fun p _ => update_progress_eq total_series p h, ?_, hmem⟩
  have hchain : List.Chain' (· ≤ ·) (drain_counts pages 0) :=
    (drain_counts_chain pages 0).tail
  show List.Chain' (· ≤ ·)
      ((drain_counts pages 0 ++ [total_series]).map (fun p => min total_series p))
  rw [List.map_append]
  rw [List.chain'_append]
  refine ⟨List.chain'_map_of_chain' _ (fun a b hab => min_le_min (le_refl _) hab) hchain,
          List.chain'_singleton _, ?_⟩
  intro x hx y hy
  have hy' : total_series = y := by simpa using hy
  obtain ⟨hne, rfl⟩ := List.mem_getLast?_eq_getLast hx
  have hxm : ((drain_counts pages 0).map (fun p => min total_series p)).getLast hne
      ∈ (drain_counts pages 0).map (fun p => min total_series p) :=
    List.getLast_mem hne
  calc ((drain_counts pages 0).map (fun p => min total_series p)).getLast hne
      ≤ total_series := hmem _ (by
        show _ ∈ (drain_counts pages 0 ++ [total_series]).map (fun p => min total_series p)
        rw [List.map_append]
        exact List.mem_append.mpr (Or.inl hxm))
    _ = y := hy'

theorem c1_witness :
    0 < 2 ∧
    ((∀ p ∈ (fetch_series_metadata_pages overflowPages 2).2,
        update_progress 2 p = some (((min 2 p : Nat) : ℚ) / (2 : ℚ))) ∧
     List.Chain' (· ≤ ·)
       ((fetch_series_metadata_pages overflowPages 2).2.map (fun p => min 2 p)) ∧
     (∀ c ∈ (fetch_series_metadata_pages overflowPages 2).2.map (fun p => min 2 p),
         c ≤ 2)) :=
  ⟨by decide, c1_progress_clamped_monotone overflowPages 2 (by decide)⟩

end CEIC
